import Mathlib

/-!
Shallow embedding of `minicap.go` from the go-stf repository, with theorems
settling the behavioural claims about the capture-session components:
the capture process supervisor (`minicapDaemon`), the frame stream reader
(`jpgTcpSucker`) and the session coordinator (`STFCapturer`).

Errors are modelled as their message strings (`Err`); a `none : Option Err`
is Go's `nil` error.  `errors.Wrap e msg` from github.com/pkg/errors
returns `nil` for a `nil` cause and otherwise prepends `msg ++ ": "`.
-/

namespace Stf

abbrev Err := String

/-- Embedding of `errors.Wrap` from github.com/pkg/errors: `Wrap(nil, msg) = nil`,
otherwise the wrapped error's message is `msg ++ ": " ++ cause`. -/
def errWrap (e : Option Err) (msg : String) : Option Err :=
  e.map (fun s => msg ++ ": " ++ s)

/-! ## Supervisor state: `minicapDaemon` geometry fields (src/minicap.go lines 41-53) -/

/-- Quality-tier constants, src/minicap.go lines 21-26. -/
def QUALITY_1080P : Int := 1

def QUALITY_720P : Int := 2

def QUALITY_480P : Int := 3

def QUALITY_240P : Int := 4

/-- The geometry-relevant fields of `minicapDaemon` (src/minicap.go lines 41-53):
`width, height, maxWidth, maxHeight, rotation int`. -/
structure MinicapDaemon where
  width : Int
  height : Int
  maxWidth : Int
  maxHeight : Int
  rotation : Int
  deriving Repr, DecidableEq

/-- Constructor `newMinicapDaemon` (src/minicap.go lines 55-65): `maxWidth: 720, maxHeight: 720`;
the remaining int fields are Go zero-valued. -/
def newMinicapDaemon : MinicapDaemon :=
  { width := 0, height := 0, maxWidth := 720, maxHeight := 720, rotation := 0 }

/-- Embedding of `SetQuality` (src/minicap.go lines 183-197).  The Go source reads
`m.maxHeight, m.maxHeight = 1080, 1080` (and likewise for the other tiers):
the tuple assignment names the field `maxHeight` on BOTH left-hand sides, so
per Go multiple-assignment semantics `maxHeight` is assigned twice and
`maxWidth` is never assigned.  The embedding reproduces exactly that.
The second component is the value sent on `rotationC` (the daemon's current
rotation, read after the switch) to force a restart, or `none` for an
unrecognised tier (the `default: return` branch sends nothing). -/
def setQuality (m : MinicapDaemon) (quality : Int) : MinicapDaemon × Option Int :=
  if quality = QUALITY_1080P then ({ m with maxHeight := 1080 }, some m.rotation)
  else if quality = QUALITY_720P then ({ m with maxHeight := 720 }, some m.rotation)
  else if quality = QUALITY_480P then ({ m with maxHeight := 480 }, some m.rotation)
  else if quality = QUALITY_240P then ({ m with maxHeight := 240 }, some m.rotation)
  else (m, none)

/-- The launch parameter string built at the top of `runScreenCapture`
(src/minicap.go line 235):
`fmt.Sprintf("%dx%d@%dx%d/%d", m.width, m.height, m.maxWidth, m.maxHeight, m.rotation)`. -/
def launchParam (m : MinicapDaemon) : String :=
  toString m.width ++ "x" ++ toString m.height ++ "@" ++ toString m.maxWidth ++ "x"
    ++ toString m.maxHeight ++ "/" ++ toString m.rotation

/-- C1: evaluation of `SetQuality(QUALITY_1080P)` on a daemon whose probe
reported 1080x1920 and whose target box is the constructor default 720x720.
The claim says a single call sets BOTH `targetMaxWidth` and `targetMaxHeight`
to the tier's bounding-box value; the code leaves `maxWidth` at 720 because
the tuple assignment writes `maxHeight` twice, so the next launch parameter
string is `1080x1920@720x1080/0` rather than `1080x1920@1080x1080/0`. -/
theorem setQuality_leaves_maxWidth_unchanged :
    let d0 : MinicapDaemon :=
      { width := 1080, height := 1920, maxWidth := 720, maxHeight := 720, rotation := 0 }
    let r := setQuality d0 QUALITY_1080P
    r.1.maxWidth = 720 ∧ r.1.maxHeight = 1080 ∧ r.2 = some 0 ∧
      launchParam r.1 = "1080x1920@720x1080/0" ∧
      launchParam r.1 ≠ "1080x1920@1080x1080/0" := by
  refine ⟨rfl, rfl, rfl, ?_, ?_⟩ <;> decide

/-! ## Supervisor control loop: `runScreenCaptureWithRotate` (src/minicap.go lines 206-232)

The loop is single-threaded and services three channels: the watched
process's completion (`errC`), the rotation channel (`rotationC`) and the
quit channel (`quitC`).  We embed one loop iteration as a step function on
the loop's state (the daemon fields plus the `needRestart` flag), returning
the list of effects the branch performs. -/

/-- One event the `select` in `runScreenCaptureWithRotate` can service. -/
inductive LoopEvent where
  /-- Branch `case err = <-errC`: the watch of the running process completed with `e`. -/
  | watchDone (e : Option Err)
  /-- Branch `case r := <-m.rotationC`: a rotation-change request carrying `r`. -/
  | rotate (r : Int)
  /-- Branch `case <-m.quitC`: the explicit stop request. -/
  | quit
  deriving Repr, DecidableEq

/-- An observable effect of one loop iteration. -/
inductive LoopEffect where
  /-- Effect `errC = GoFunc(m.runScreenCapture)`: the process is relaunched. -/
  | relaunch
  /-- Effect `m.killMinicap()`. -/
  | killProc
  /-- the loop returns; the deferred `m.doneError(errors.Wrap(err, "minicap"))`
  records `e` as the terminal result. -/
  | terminate (e : Option Err)
  deriving Repr, DecidableEq

/-- State carried across loop iterations. -/
structure LoopState where
  daemon : MinicapDaemon
  needRestart : Bool
  deriving Repr, DecidableEq

/-- One iteration of the `for { select { ... } }` in
`runScreenCaptureWithRotate` (src/minicap.go lines 214-231):
* `watchDone e` with `needRestart = false`: return; terminal error is
  `errors.Wrap(e, "minicap")`;
* `watchDone e` with `needRestart = true`: clear the flag, discard the
  error (`err = nil`) and relaunch;
* `rotate r`: set `needRestart`, store `r` in `m.rotation`, kill the process;
* `quit`: kill the process and return (`err` is `nil` on every path that can
  reach this branch, so the recorded terminal error is `nil`). -/
def loopStep (s : LoopState) (ev : LoopEvent) : LoopState × List LoopEffect :=
  match ev with
  | .watchDone e =>
      if s.needRestart then ({ s with needRestart := false }, [.relaunch])
      else (s, [.terminate (errWrap e "minicap")])
  | .rotate r =>
      ({ daemon := { s.daemon with rotation := r }, needRestart := true }, [.killProc])
  | .quit => (s, [.killProc, .terminate none])

/-- Embedding of `SetRotation(r)` (src/minicap.go lines 199-204) composed with the control
loop: the `select` either delivers `r` on `rotationC`, in which case the loop
services it as a `rotate r` event, or the 100 ms timer fires first, in which
case `SetRotation` returns and nothing at all happens to the loop state. -/
def setRotationEffect (s : LoopState) (r : Int) (delivered : Bool) :
    LoopState × List LoopEffect :=
  if delivered then loopStep s (.rotate r) else (s, [])

/-- C7: `SetRotation(r)` either is observed — then the rotation request has
the full effect: rotation set to `r`, restart flag raised, the running
process killed, and the next watch completion performs exactly one relaunch
(whose launch parameters use rotation `r`) after which the flag is down
again, so a further watch completion terminates instead of relaunching — or
the timer fires first and the loop state is untouched.  Never a partial
effect. -/
theorem setRotation_all_or_nothing (s : LoopState) (r : Int) :
    (setRotationEffect s r false = (s, [])) ∧
    ((setRotationEffect s r true).1.daemon.rotation = r ∧
      (setRotationEffect s r true).1.needRestart = true ∧
      (setRotationEffect s r true).2 = [.killProc]) ∧
    (∀ e : Option Err,
      (loopStep (setRotationEffect s r true).1 (.watchDone e)).2 = [.relaunch] ∧
      (loopStep (setRotationEffect s r true).1 (.watchDone e)).1.needRestart = false ∧
      (loopStep (setRotationEffect s r true).1 (.watchDone e)).1.daemon.rotation = r ∧
      (∀ e' : Option Err,
        (loopStep (loopStep (setRotationEffect s r true).1 (.watchDone e)).1
          (.watchDone e')).2 = [.terminate (errWrap e' "minicap")])) := by
  refine ⟨rfl, ⟨rfl, rfl, rfl⟩, fun e => ⟨rfl, rfl, rfl, fun e' => rfl⟩⟩

/-! ## Frame stream reader: `jpgTcpSucker.readFromTcp` (src/minicap.go lines 384-425)

After the fixed preamble, the per-connection loop reads a 4-byte
little-endian length, copies up to that many payload bytes into a fresh
`bytes.Buffer` via `io.Copy` (a `LimitedReader` stops at the declared
length; a connection that ends earlier makes `io.Copy` return `nil`, since
`EOF` is not an error to it), checks `buf.Bytes()[:2]` against the JPEG
start-of-image marker, and performs a non-blocking send into the capacity-3
channel `s.C`. -/

/-- A frame is the payload byte slice delivered on `s.C`. -/
abbrev Frame := List Nat

/-- Value of `buf.Bytes()[:2]` after `io.Copy(buf, lr)` into a fresh
`bytes.NewBuffer(nil)`.  `io.Copy` dispatches to `bytes.Buffer.ReadFrom`,
which grows the buffer to capacity at least `MinRead = 512` before the first
read, so the re-slice to length 2 is always inside the slice capacity (Go
permits re-slicing up to the capacity) and never panics; the bytes past the
written length come from the freshly zeroed allocation.  Hence the two bytes
inspected are the payload padded on the right with zeros. -/
def firstTwoBytes (payload : List Nat) : List Nat :=
  (payload ++ [0, 0]).take 2

/-- The check `string(buf.Bytes()[:2]) != "\xff\xd8"` (src/minicap.go line 414),
stated positively: `true` when the two inspected bytes are `0xFF 0xD8`. -/
def jpegMarkerOk (payload : List Nat) : Bool :=
  firstTwoBytes payload = [0xff, 0xd8]

/-- Non-blocking delivery into `s.C` (capacity 3, src/minicap.go lines 314 and
418-422): `select { case s.C <- buf.Bytes(): default: }`.  The channel is
modelled as the list of queued frames; the `default` branch drops the frame
when the channel already holds 3. -/
def trySend (q : List Frame) (f : Frame) : List Frame :=
  if q.length < 3 then q ++ [f] else q

/-- One length-prefixed frame as it arrives on the connection: the declared
4-byte length and the bytes that actually arrive before the connection ends
(at most `size` of them, because the `LimitedReader` stops at `size`). -/
structure FrameChunk where
  size : Nat
  data : List Nat
  data_le : data.length ≤ size

/-- How the frame loop in `readFromTcp` ends for one connection. -/
inductive ReadResult where
  /-- Outcome `err = errors.New("jpeg format error, not starts with 0xff,0xd8")`. -/
  | jpegErr
  /-- Outcome where `binRd.ReadInto(&size)` failed: the stream ended (or errored) at a
  frame boundary, including right after a frame whose copy was cut short. -/
  | lengthReadErr
  deriving Repr, DecidableEq

/-- The `for` loop of `readFromTcp` (src/minicap.go lines 402-423) over the
connection's frame chunks, threading the queued frames of `s.C`:
read a length (fails once the stream is exhausted), copy the available
payload (`io.Copy` reports no error on early EOF), break with `jpegErr`
if the two inspected bytes are not `FF D8`, otherwise deliver
non-blockingly and continue; a chunk whose copy was cut short leaves the
stream exhausted, so the next length read fails. -/
def readLoop : List FrameChunk → List Frame → List Frame × ReadResult
  | [], q => (q, .lengthReadErr)
  | c :: rest, q =>
      if jpegMarkerOk c.data then
        if c.data.length < c.size then (trySend q c.data, .lengthReadErr)
        else readLoop rest (trySend q c.data)
      else (q, .jpegErr)

/-- A payload with fewer than two bytes never passes the marker check: the
padded second byte is 0, not 0xD8 (and for an empty payload the first is 0,
not 0xFF). -/
theorem jpegMarkerOk_short (data : List Nat) (h : data.length < 2) :
    jpegMarkerOk data = false := by
  match data, h with
  | [], _ => decide
  | [a], _ =>
      simp [jpegMarkerOk, firstTwoBytes]

/-- C2: a frame whose declared length is 0 or 1, or whose connection ends
before two payload bytes arrive, takes the error path of the marker check
(the loop breaks with the `jpeg format error`), delivering nothing; the
two-byte inspection itself stays inside the buffer's capacity (see
`firstTwoBytes`), so no out-of-bounds access occurs. -/
theorem readLoop_short_payload_error (c : FrameChunk) (rest : List FrameChunk)
    (q : List Frame) (h : c.size ≤ 1 ∨ c.data.length < 2) :
    readLoop (c :: rest) q = (q, .jpegErr) := by
  have hlen : c.data.length < 2 := by
    rcases h with h | h
    · exact Nat.lt_of_le_of_lt c.data_le (Nat.lt_of_le_of_lt h (by omega))
    · exact h
  simp [readLoop, jpegMarkerOk_short c.data hlen]

/-- Witness for `readLoop_short_payload_error`: a declared length of 0. -/
theorem readLoop_short_payload_error_witness :
    (0 : Nat) ≤ 1 ∧
      readLoop [⟨0, [], Nat.le_refl 0⟩] [] = ([], .jpegErr) :=
  ⟨Nat.zero_le 1,
    readLoop_short_payload_error ⟨0, [], Nat.le_refl 0⟩ [] [] (Or.inl (Nat.zero_le 1))⟩

/-- A payload that passes the marker check has at least two bytes and they
are `0xFF 0xD8` (a shorter payload's zero padding can never match). -/
theorem jpegMarkerOk_take (data : List Nat) (h : jpegMarkerOk data = true) :
    data.take 2 = [0xff, 0xd8] := by
  match data with
  | [] => exact absurd h (by decide)
  | [a] =>
      exfalso
      simp [jpegMarkerOk, firstTwoBytes] at h
  | a :: b :: t =>
      simp only [jpegMarkerOk, firstTwoBytes, List.cons_append, decide_eq_true_eq] at h
      simp only [List.take_succ_cons, List.take_zero] at h ⊢
      exact h

/-- Membership after a non-blocking send: either the frame was already
queued or it is the one just sent. -/
theorem mem_trySend (q : List Frame) (f g : Frame) (h : g ∈ trySend q f) :
    g ∈ q ∨ g = f := by
  unfold trySend at h
  by_cases hq : q.length < 3
  · rw [if_pos hq] at h
    rcases List.mem_append.mp h with h | h
    · exact Or.inl h
    · exact Or.inr (List.mem_singleton.mp h)
  · rw [if_neg hq] at h
    exact Or.inl h

/-- The marker invariant is preserved by the whole read loop: if every
already-queued frame starts with `FF D8`, so does every frame queued when
the loop ends. -/
theorem readLoop_marker_invariant (chunks : List FrameChunk) (q : List Frame)
    (hq : ∀ f ∈ q, List.take 2 f = [0xff, 0xd8]) :
    ∀ f ∈ (readLoop chunks q).1, List.take 2 f = [0xff, 0xd8] := by
  induction chunks generalizing q with
  | nil => exact hq
  | cons c rest ih =>
      intro f hf
      rw [readLoop] at hf
      by_cases hm : jpegMarkerOk c.data = true
      · rw [if_pos hm] at hf
        have hq' : ∀ g ∈ trySend q c.data, List.take 2 g = [0xff, 0xd8] := by
          intro g hg
          rcases mem_trySend q c.data g hg with h | h
          · exact hq g h
          · rw [h]; exact jpegMarkerOk_take c.data hm
        by_cases hc : c.data.length < c.size
        · rw [if_pos hc] at hf
          exact hq' f hf
        · rw [if_neg hc] at hf
          exact ih (trySend q c.data) hq' f hf
      · rw [if_neg hm] at hf
        exact hq f hf

/-- C4: starting from the freshly made (empty) channel, every frame the read
loop delivers into the output queue begins with `0xFF 0xD8`; and a payload
whose inspected two bytes differ ends the connection's loop with the
`jpeg format error` and is never delivered (the queue is returned unchanged). -/
theorem delivered_frames_start_with_soi (chunks : List FrameChunk) :
    (∀ f ∈ (readLoop chunks []).1, List.take 2 f = [0xff, 0xd8]) ∧
    (∀ (c : FrameChunk) (rest : List FrameChunk) (q : List Frame),
      jpegMarkerOk c.data = false → readLoop (c :: rest) q = (q, .jpegErr)) := by
  constructor
  · exact readLoop_marker_invariant chunks [] (by intro f hf; cases hf)
  · intro c rest q hm
    rw [readLoop, if_neg (by rw [hm]; exact Bool.false_ne_true)]

/-- Witness for `delivered_frames_start_with_soi`: one frame `[0x00, 0x01]`
violates the marker and is rejected without delivery. -/
theorem delivered_frames_start_with_soi_witness :
    jpegMarkerOk [0, 1] = false ∧
      readLoop [⟨2, [0, 1], by decide⟩] [] = ([], .jpegErr) :=
  ⟨by decide,
    (delivered_frames_start_with_soi []).2 ⟨2, [0, 1], by decide⟩ [] [] (by decide)⟩

/-- The non-blocking send keeps the queue within the channel capacity 3. -/
theorem trySend_length_le (q : List Frame) (f : Frame) (h : q.length ≤ 3) :
    (trySend q f).length ≤ 3 := by
  unfold trySend
  by_cases hq : q.length < 3
  · rw [if_pos hq]
    simp only [List.length_append, List.length_cons, List.length_nil]
    omega
  · rw [if_neg hq]
    exact h

/-- The read loop never grows the queue past the channel capacity 3. -/
theorem readLoop_length_le (chunks : List FrameChunk) (q : List Frame)
    (h : q.length ≤ 3) : ((readLoop chunks q).1).length ≤ 3 := by
  induction chunks generalizing q with
  | nil => exact h
  | cons c rest ih =>
      rw [readLoop]
      by_cases hm : jpegMarkerOk c.data = true
      · rw [if_pos hm]
        by_cases hc : c.data.length < c.size
        · rw [if_pos hc]; exact trySend_length_le q c.data h
        · rw [if_neg hc]; exact ih _ (trySend_length_le q c.data h)
      · rw [if_neg hm]; exact h

/-- C5: the output queue holds at most 3 frames and delivery never blocks:
the send is the total function `trySend` (the `select` with a `default`
branch returns immediately in both cases), which appends when there is room,
returns the queue unchanged — discarding the new frame — when it is full,
and never exceeds the capacity; consequently the whole read loop keeps the
queue within 3 however many frames arrive. -/
theorem frame_queue_bounded (q : List Frame) (f : Frame) (chunks : List FrameChunk)
    (h : q.length ≤ 3) :
    (q.length < 3 → trySend q f = q ++ [f]) ∧
    (q.length = 3 → trySend q f = q) ∧
    (trySend q f).length ≤ 3 ∧
    ((readLoop chunks q).1).length ≤ 3 := by
  refine ⟨fun hlt => if_pos hlt, fun heq => if_neg (by omega), ?_, ?_⟩
  · exact trySend_length_le q f h
  · exact readLoop_length_le chunks q h

/-- Witness for `frame_queue_bounded`: a full queue of three marker-correct
frames drops the incoming frame and stays at length 3. -/
theorem frame_queue_bounded_witness :
    ([[0xff, 0xd8], [0xff, 0xd8], [0xff, 0xd8]] : List Frame).length ≤ 3 ∧
      (trySend [[0xff, 0xd8], [0xff, 0xd8], [0xff, 0xd8]] [0xff, 0xd8, 7] =
        [[0xff, 0xd8], [0xff, 0xd8], [0xff, 0xd8]] ∧
      (trySend [[0xff, 0xd8], [0xff, 0xd8], [0xff, 0xd8]] [0xff, 0xd8, 7]).length ≤ 3) :=
  ⟨by decide,
    (frame_queue_bounded [[0xff, 0xd8], [0xff, 0xd8], [0xff, 0xd8]] [0xff, 0xd8, 7] []
        (by decide)).2.1 (by decide),
    (frame_queue_bounded [[0xff, 0xd8], [0xff, 0xd8], [0xff, 0xd8]] [0xff, 0xd8, 7] []
        (by decide)).2.2.1⟩

/-! ## Reader retry loop: `jpgTcpSucker.keepReadFromTcp` (src/minicap.go lines 360-382)

```
leftRetry := 10
for {
    select { case err = <-GoFunc(s.readFromTcp): case <-s.quitC: return nil }
    select { case <-time.After(500 * time.Millisecond): case <-s.quitC: return nil }
    if leftRetry <= 0 { err = errors.New("jpgTcpSucker reach max retry(10)"); return }
    leftRetry -= 1
}
```

We embed the loop for the scenario of claim C3 — every dial fails, so every
`readFromTcp` returns promptly with an error — as a function of the
remaining budget and of when (if ever) the stop signal wins a `select`.
Note `GoFunc(s.readFromTcp)` is evaluated when the first `select` is set
up, so the iteration's dial attempt is issued even when the stop signal
wins that `select`.  `leftRetry` starts at 10 and is only decremented when
strictly positive, so `Nat` subtraction is exact here. -/

/-- The message of the retry-exhaustion error (src/minicap.go line 377). -/
def maxRetryErrMsg : Err := "jpgTcpSucker reach max retry(10)"

/-- The retry loop under an always-failing dial.  `quit = some k` means the
stop signal wins one of the two `select`s during iteration `k` (0-based);
`none` means it never arrives.  Returns the number of dial attempts issued
and the value the function returns (`none` is Go's `nil`). -/
def keepReadFromTcpFail : Nat → Option Nat → Nat × Option Err
  | _, some 0 => (1, none)
  | 0, _ => (1, some maxRetryErrMsg)
  | n + 1, quit =>
      let r := keepReadFromTcpFail n
        (match quit with
         | some (k + 1) => some k
         | _ => none)
      (r.1 + 1, r.2)

/-- With the stop signal pending for iteration `k ≤ 10`, the loop issues
`k + 1` dial attempts (iteration `k`'s dial is spawned before the signal is
consumed) and returns `nil`. -/
theorem keepReadFromTcpFail_quit (n k : Nat) (h : k ≤ n) :
    keepReadFromTcpFail n (some k) = (k + 1, none) := by
  induction n generalizing k with
  | zero =>
      interval_cases k
      rfl
  | succ n ih =>
      match k with
      | 0 => rfl
      | k + 1 =>
          rw [keepReadFromTcpFail, ih k (Nat.le_of_succ_le_succ h)]

/-- C3: with every dial failing and no stop signal, the background task
issues the initial attempt plus exactly 10 retries — 11 dial attempts, each
followed by a 500 ms wait — and returns the retry-exhaustion error, which
the deferred `doneError(errors.Wrap(err, "readFromTcp"))` records as the
terminal result; after that the function has returned, so no further dial
attempt is issued.  A stop signal winning a `select` at any iteration
`k ≤ 10` instead makes the task return `nil`, recorded as no error
(`errors.Wrap(nil, ...) = nil`). -/
theorem keepReadFromTcp_retry_budget :
    keepReadFromTcpFail 10 none = (11, some maxRetryErrMsg) ∧
    errWrap (keepReadFromTcpFail 10 none).2 "readFromTcp" =
      some "readFromTcp: jpgTcpSucker reach max retry(10)" ∧
    (∀ k, k ≤ 10 →
      keepReadFromTcpFail 10 (some k) = (k + 1, none) ∧
      errWrap (keepReadFromTcpFail 10 (some k)).2 "readFromTcp" = none) := by
  refine ⟨rfl, rfl, fun k hk => ?_⟩
  have h := keepReadFromTcpFail_quit 10 k hk
  exact ⟨h, by rw [h]; rfl⟩

/-- Witness for `keepReadFromTcp_retry_budget`: stop during iteration 3. -/
theorem keepReadFromTcp_retry_budget_witness :
    (3 : Nat) ≤ 10 ∧ keepReadFromTcpFail 10 (some 3) = (4, none) :=
  ⟨by decide, (keepReadFromTcp_retry_budget.2.2 3 (by decide)).1⟩

/-! ## Control-stream watch: the line protocol of `runScreenCapture`
(src/minicap.go lines 247-261)

After launching the process, `runScreenCapture` reads one line with
`buf.ReadLine()`; a read error is returned as-is; a line not containing
`"PID:"` yields the `expect PID:` error; otherwise every further line is
read and discarded until a read error ends the loop, after which the
function returns `errors.New("minicap quit")` — the stream ending is always
an error termination. -/

/-- Boolean test that the first list starts the second (helper for `hasSub`). -/
def isPre : List Char → List Char → Bool
  | [], _ => true
  | _ :: _, [] => false
  | a :: as, b :: bs => a = b && isPre as bs

/-- Embedding of `strings.Contains(s, pat)` on character lists: `pat` occurs
as a contiguous substring of `s`. -/
def hasSub (pat : List Char) : List Char → Bool
  | [] => isPre pat []
  | c :: tail => isPre pat (c :: tail) || hasSub pat tail

/-- The marker `"PID:"` looked for in the first control-stream line
(src/minicap.go line 251). -/
def pidMarker : List Char := ['P', 'I', 'D', ':']

/-- How the watch of the control stream ends. -/
inductive WatchResult where
  /-- The first `buf.ReadLine()` failed; its error is returned unchanged. -/
  | readErr
  /-- The error `expect PID: <pid> actually: <line>` wrapped as `run minicap`. -/
  | pidViolation
  /-- The stream ended after a good first line: `errors.New("minicap quit")`. -/
  | quitErr
  deriving Repr, DecidableEq

/-- The line-protocol part of `runScreenCapture` (src/minicap.go lines
247-261) over the finite list of lines the control stream delivers before
ending: the FIRST line read — empty or not — is checked for `"PID:"`; all
later lines are read and discarded; the end of the stream always produces
the `minicap quit` error. -/
def runScreenCaptureWatch (lines : List (List Char)) : WatchResult :=
  match lines with
  | [] => .readErr
  | line :: _ => if hasSub pidMarker line then .quitErr else .pidViolation

/-- Following the claim's words, for comparison with the code: the line
whose content decides the watch is the first NON-EMPTY line. -/
def specFirstNonEmptyLine (lines : List (List Char)) : Option (List Char) :=
  match lines with
  | [] => none
  | l :: rest => if l.isEmpty then specFirstNonEmptyLine rest else some l

/-- C6 counterexample: a control stream whose first line is empty and whose
second line is `PID: 9355`.  Its first non-empty line contains `"PID:"`, so
by the claim the watch must not fail with the protocol violation — but the
code checks the very first line, which is empty, and fails. -/
theorem watch_checks_first_line_not_first_nonempty :
    (specFirstNonEmptyLine [[], ("PID: 9355".data)]).map (hasSub pidMarker) = some true ∧
      runScreenCaptureWatch [[], ("PID: 9355".data)] = .pidViolation := by
  constructor <;> decide

/-- C6 amended: the FIRST line read from the control stream (even an empty
one) must contain `"PID:"`, otherwise the watch fails with the
protocol-violation error; when it does, every later line is discarded — the
outcome does not depend on them — and the stream ending is always reported
as the `minicap quit` error termination.  An immediately failing first read
returns that read error instead. -/
theorem watch_first_line_decides (l : List Char) (rest : List (List Char)) :
    runScreenCaptureWatch [] = .readErr ∧
    (hasSub pidMarker l = false → runScreenCaptureWatch (l :: rest) = .pidViolation) ∧
    (hasSub pidMarker l = true →
      runScreenCaptureWatch (l :: rest) = .quitErr ∧
      ∀ rest' : List (List Char),
        runScreenCaptureWatch (l :: rest') = runScreenCaptureWatch (l :: rest)) := by
  refine ⟨rfl, fun h => ?_, fun h => ⟨?_, fun rest' => ?_⟩⟩ <;>
    simp [runScreenCaptureWatch, h]

/-- Witness for `watch_first_line_decides`: the documented example stream. -/
theorem watch_first_line_decides_witness :
    hasSub pidMarker ("PID: 9355".data) = true ∧
      runScreenCaptureWatch
        [("PID: 9355".data), ("INFO: Using projection 720x1280@720x1280/0".data)] =
        .quitErr :=
  ⟨by decide,
    ((watch_first_line_decides ("PID: 9355".data)
        [("INFO: Using projection 720x1280@720x1280/0".data)]).2.2 (by decide)).1⟩

/-! ## Binary provisioning: `prepare` / `pushFiles` (src/minicap.go lines 110-180)

The remote file system is modelled as the list `fs` of paths that exist
(`m.Stat` / `AdbFileExists` succeed exactly on those); the device property
map is modelled by its two consulted entries.  A push is recorded with its
destination, permission bits and source URL; `PushFileFromHTTP` itself is a
collaborator and is not modelled beyond the record of its invocation. -/

/-- Fixed remote path of the slow variant (src/minicap.go line 111). -/
def slowCapPath : String := "/data/local/tmp/slow-minicap"

/-- Remote path of the fast variant (src/minicap.go line 115). -/
def fastBinPath : String := "/data/local/tmp/minicap"

/-- Artifact host base URL (src/minicap.go line 167). -/
def vendorBaseUrl : String := "https://gohttp.nie.netease.com/openstf/vendor"

/-- One invocation of `PushFileFromHTTP(m.Device, dst, perms, urlStr)`. -/
structure PushOp where
  dst : String
  perms : Nat
  url : String
  deriving Repr, DecidableEq

/-- Embedding of `pushFiles` (src/minicap.go lines 147-180): fail if either
consulted property is missing; otherwise iterate over
`{"minicap.so", "minicap"}`, skip a file whose destination already exists,
and push the rest — the shared library with perms 0644 from the
SDK/ABI-keyed URL, the executable with perms 0755 from the ABI-keyed URL.
Pushes are recorded rather than performed (the claim's scenario has no push
failures). -/
def pushFiles (fs : List String) (abi? sdk? : Option String) :
    Except Err (List PushOp) :=
  match abi? with
  | none => .error "No ro.product.cpu.abi propery"
  | some abi =>
      match sdk? with
      | none => .error "No ro.build.version.sdk propery"
      | some sdk =>
          .ok ((["minicap.so", "minicap"].filter
                  (fun filename => !(fs.contains ("/data/local/tmp/" ++ filename)))).map
            (fun filename =>
              if filename = "minicap.so" then
                { dst := "/data/local/tmp/" ++ filename, perms := 0o644,
                  url := vendorBaseUrl ++ "/minicap/shared/android-" ++ sdk ++ "/"
                    ++ abi ++ "/minicap.so" }
              else
                { dst := "/data/local/tmp/" ++ filename, perms := 0o755,
                  url := vendorBaseUrl ++ "/minicap/bin/" ++ abi ++ "/minicap" }))

/-- Outcome of the provisioning part of `prepare`. -/
structure PrepareResult where
  binaryPath : String
  pushes : List PushOp
  deriving Repr, DecidableEq

/-- Embedding of the provisioning part of `prepare` (src/minicap.go lines
110-127): if the slow variant exists at its fixed remote path select it and
push nothing, else select the fast variant and run `pushFiles`.  (The
subsequent `-i` probe and JSON parse do not move files and are modelled by
the probe outcome in `daemonStart`.) -/
def prepare (fs : List String) (abi? sdk? : Option String) :
    Except Err PrepareResult :=
  if fs.contains slowCapPath then .ok { binaryPath := slowCapPath, pushes := [] }
  else
    match pushFiles fs abi? sdk? with
    | .error e => .error e
    | .ok ps => .ok { binaryPath := fastBinPath, pushes := ps }

/-- Pushes performed by `n` consecutive Start/Stop cycles: each `Start` runs
`prepare` (via `prepareSafe`, whose retries re-run the same `prepare`), each
`Stop` pushes nothing, and no code path deletes remote files, so the remote
file set is the same `fs` in every cycle. -/
def cyclePushes (fs : List String) (abi? sdk? : Option String) : Nat → List PushOp
  | 0 => []
  | n + 1 =>
      (match prepare fs abi? sdk? with
       | .ok r => r.pushes
       | .error _ => []) ++ cyclePushes fs abi? sdk? n

/-- C8: if the slow variant exists remotely it is selected and nothing is
pushed — in particular repeated Start/Stop cycles never push; otherwise the
fast variant is selected and exactly the missing files among the shared
library (perms 0644, SDK/ABI-keyed URL) and the executable (perms 0755,
ABI-keyed URL) are pushed, and when both already exist remotely repeated
cycles never push either. -/
theorem provisioning_pushes (fs : List String) (abi sdk : String) :
    (slowCapPath ∈ fs →
      prepare fs (some abi) (some sdk) = .ok { binaryPath := slowCapPath, pushes := [] } ∧
      ∀ n, cyclePushes fs (some abi) (some sdk) n = []) ∧
    (slowCapPath ∉ fs →
      prepare fs (some abi) (some sdk) = .ok
        { binaryPath := fastBinPath,
          pushes :=
            (if "/data/local/tmp/minicap.so" ∈ fs then [] else
              [{ dst := "/data/local/tmp/minicap.so", perms := 0o644,
                 url := vendorBaseUrl ++ "/minicap/shared/android-" ++ sdk ++ "/"
                   ++ abi ++ "/minicap.so" }]) ++
            (if "/data/local/tmp/minicap" ∈ fs then [] else
              [{ dst := "/data/local/tmp/minicap", perms := 0o755,
                 url := vendorBaseUrl ++ "/minicap/bin/" ++ abi ++ "/minicap" }]) } ∧
      ("/data/local/tmp/minicap.so" ∈ fs → "/data/local/tmp/minicap" ∈ fs →
        ∀ n, cyclePushes fs (some abi) (some sdk) n = [])) := by
  have e1 : ("/data/local/tmp/" ++ "minicap.so" : String) = "/data/local/tmp/minicap.so" := rfl
  have e2 : ("/data/local/tmp/" ++ "minicap" : String) = "/data/local/tmp/minicap" := rfl
  have ne1 : ("minicap" : String) ≠ "minicap.so" := by decide
  constructor
  · intro h
    refine ⟨by simp [prepare, h], fun n => ?_⟩
    induction n with
    | zero => rfl
    | succ n ih => simp [cyclePushes, prepare, h, ih]
  · intro h
    have hprep :
        prepare fs (some abi) (some sdk) = .ok
          { binaryPath := fastBinPath,
            pushes :=
              (if "/data/local/tmp/minicap.so" ∈ fs then [] else
                [{ dst := "/data/local/tmp/minicap.so", perms := 0o644,
                   url := vendorBaseUrl ++ "/minicap/shared/android-" ++ sdk ++ "/"
                     ++ abi ++ "/minicap.so" }]) ++
              (if "/data/local/tmp/minicap" ∈ fs then [] else
                [{ dst := "/data/local/tmp/minicap", perms := 0o755,
                   url := vendorBaseUrl ++ "/minicap/bin/" ++ abi ++ "/minicap" }]) } := by
      by_cases h1 : "/data/local/tmp/minicap.so" ∈ fs <;>
        by_cases h2 : "/data/local/tmp/minicap" ∈ fs <;>
          simp [prepare, pushFiles, h, e1, e2, ne1, h1, h2]
    refine ⟨hprep, fun h1 h2 n => ?_⟩
    rw [if_pos h1, if_pos h2, List.append_nil] at hprep
    induction n with
    | zero => rfl
    | succ n ih => simp [cyclePushes, hprep, ih]

/-- Witness for `provisioning_pushes`: with only the slow variant present,
provisioning selects it and three Start/Stop cycles push nothing. -/
theorem provisioning_pushes_witness :
    slowCapPath ∈ [slowCapPath] ∧
      prepare [slowCapPath] (some "arm64-v8a") (some "25") =
        .ok { binaryPath := slowCapPath, pushes := [] } ∧
      cyclePushes [slowCapPath] (some "arm64-v8a") (some "25") 3 = [] :=
  ⟨by decide,
    ((provisioning_pushes [slowCapPath] "arm64-v8a" "25").1 (by decide)).1,
    ((provisioning_pushes [slowCapPath] "arm64-v8a" "25").1 (by decide)).2 3⟩

/-! ## Session coordinator: `STFCapturer` (src/minicap.go lines 427-456) -/

/-- An `adb.ForwardSpec` value: in go-adb, `FProtocolTcp = "tcp"` and
`FProtocolAbstract = "localabstract"`. -/
structure ForwardSpec where
  protocol : String
  target : String
  deriving Repr, DecidableEq

/-- What `STFCapturer.Start` did: whether the reader (`jpgTcpSucker`) was
started, with which forward spec, and the returned error (`none` = `nil`). -/
structure StartTrace where
  suckerStarted : Bool
  forwardSpec : Option ForwardSpec
  result : Option Err
  deriving Repr, DecidableEq

/-- Embedding of `minicapDaemon.Start`'s outcome as the coordinator observes
it: provisioning via `prepare` (the retries of `prepareSafe` re-run the same
`prepare` against the unchanged file system), then the `-i` probe and JSON
parse, whose combined outcome is the parameter `probeErr`; errors are
wrapped `prepare minicap` (src/minicap.go line 75); on success the daemon's
`binaryPath` field holds `prepare`'s choice. -/
def daemonStart (fs : List String) (abi? sdk? : Option String)
    (probeErr : Option Err) : Except Err String :=
  match prepare fs abi? sdk? with
  | .error e => .error ("prepare minicap: " ++ e)
  | .ok r =>
      match probeErr with
      | some e => .error ("prepare minicap: " ++ e)
      | none => .ok r.binaryPath

/-- Embedding of `STFCapturer.Start` (src/minicap.go lines 439-450): start
the supervisor; on error return it at once, never touching the reader;
otherwise pick the reader's forward spec from the supervisor's selected
binary — `{tcp, "2016"}` when it is the slow variant, `{localabstract,
"minicap"}` otherwise — then start the reader, whose own result is
`suckerResult`. -/
def capturerStart (fs : List String) (abi? sdk? : Option String)
    (probeErr : Option Err) (suckerResult : Option Err) : StartTrace :=
  match daemonStart fs abi? sdk? probeErr with
  | .error e => { suckerStarted := false, forwardSpec := none, result := some e }
  | .ok binaryPath =>
      if binaryPath = slowCapPath then
        { suckerStarted := true, forwardSpec := some ⟨"tcp", "2016"⟩,
          result := suckerResult }
      else
        { suckerStarted := true, forwardSpec := some ⟨"localabstract", "minicap"⟩,
          result := suckerResult }

/-- C9: the coordinator starts the supervisor first and propagates its error
without starting the reader; only on supervisor success is the reader's
transport chosen from the selected binary variant — the fixed loopback port
2016 for the slow variant, the abstract-namespace socket `minicap` for the
fast one — and the reader started. -/
theorem capturer_start_sequencing (fs : List String) (abi? sdk? : Option String)
    (probeErr : Option Err) (suckerResult : Option Err) :
    (∀ e, daemonStart fs abi? sdk? probeErr = .error e →
      capturerStart fs abi? sdk? probeErr suckerResult =
        { suckerStarted := false, forwardSpec := none, result := some e }) ∧
    (∀ p, daemonStart fs abi? sdk? probeErr = .ok p →
      (capturerStart fs abi? sdk? probeErr suckerResult).suckerStarted = true ∧
      (capturerStart fs abi? sdk? probeErr suckerResult).result = suckerResult) ∧
    (slowCapPath ∈ fs → probeErr = none →
      capturerStart fs abi? sdk? probeErr suckerResult =
        { suckerStarted := true, forwardSpec := some ⟨"tcp", "2016"⟩,
          result := suckerResult }) ∧
    (slowCapPath ∉ fs → probeErr = none →
      ∀ ps, pushFiles fs abi? sdk? = .ok ps →
        capturerStart fs abi? sdk? probeErr suckerResult =
          { suckerStarted := true, forwardSpec := some ⟨"localabstract", "minicap"⟩,
            result := suckerResult }) := by
  have hne : fastBinPath ≠ slowCapPath := by decide
  refine ⟨fun e he => ?_, fun p hp => ?_, fun hin hpe => ?_, fun hout hpe ps hps => ?_⟩
  · simp [capturerStart, he]
  · by_cases hs : p = slowCapPath <;> simp [capturerStart, hp, hs]
  · subst hpe
    simp [capturerStart, daemonStart, prepare, hin]
  · subst hpe
    simp [capturerStart, daemonStart, prepare, hout, hps, hne]

/-- Witness for `capturer_start_sequencing`: a device that already has the
slow variant and a healthy probe leads to the tcp-2016 transport. -/
theorem capturer_start_sequencing_witness :
    slowCapPath ∈ [slowCapPath] ∧ (none : Option Err) = none ∧
      capturerStart [slowCapPath] (some "arm64-v8a") (some "25") none none =
        { suckerStarted := true, forwardSpec := some ⟨"tcp", "2016"⟩, result := none } :=
  ⟨by decide, rfl,
    (capturer_start_sequencing [slowCapPath] (some "arm64-v8a") (some "25")
        none none).2.2.1 (by decide) rfl⟩

/-- One of the two component `Stop` calls of `STFCapturer.Stop`. -/
inductive StopCall where
  | daemon
  | sucker
  deriving Repr, DecidableEq

/-- Modelled from the spec: `wrapMultiError`, defined in this repository
outside `src/` (only its call site `STFCapturer.Stop` is in src/minicap.go).
Per the spec it combines "both errors rather than short-circuiting" and
"aggregates both sub-component errors without suppression": the combined
result is `nil` iff every argument is `nil`, and otherwise carries every
non-`nil` argument's message. -/
def wrapMultiError (e1 e2 : Option Err) : Option Err :=
  match e1, e2 with
  | none, none => none
  | some a, none => some a
  | none, some b => some b
  | some a, some b => some (a ++ "; " ++ b)

/-- Embedding of `STFCapturer.Stop` (src/minicap.go lines 452-456):
`wrapMultiError(s.minicapDaemon.Stop(), s.jpgTcpSucker.Stop())`.  Go
evaluates both arguments, in order, before the call, so both components'
`Stop` methods run whatever either returns; the first component records the
stop calls performed. -/
def capturerStop (daemonErr suckerErr : Option Err) : List StopCall × Option Err :=
  ([.daemon, .sucker], wrapMultiError daemonErr suckerErr)

/-- Helper: `String.data` distributes over append. -/
theorem string_data_append (a b : String) : (a ++ b).data = a.data ++ b.data := by
  cases a
  cases b
  rfl

/-- C10: `Stop()` always invokes both components' `Stop`, in order,
regardless of either failing, and combines the two results without
suppression: the combined result is `nil` iff both succeeded, and each
failing component's message occurs verbatim inside the combined message. -/
theorem capturer_stop_combines (d s : Option Err) :
    (capturerStop d s).1 = [.daemon, .sucker] ∧
    ((capturerStop d s).2 = none ↔ (d = none ∧ s = none)) ∧
    (∀ a, d = some a → ∃ m, (capturerStop d s).2 = some m ∧
      ∃ l r, m.data = l ++ a.data ++ r) ∧
    (∀ b, s = some b → ∃ m, (capturerStop d s).2 = some m ∧
      ∃ l r, m.data = l ++ b.data ++ r) := by
  refine ⟨rfl, ?_, ?_, ?_⟩
  · cases d <;> cases s <;> simp [capturerStop, wrapMultiError]
  · rintro a rfl
    cases s with
    | none => exact ⟨a, rfl, [], [], by simp⟩
    | some b =>
        refine ⟨a ++ "; " ++ b, rfl, [], ("; " ++ b).data, ?_⟩
        rw [string_data_append, string_data_append]
        simp
  · rintro b rfl
    cases d with
    | none => exact ⟨b, rfl, [], [], by simp⟩
    | some a =>
        refine ⟨a ++ "; " ++ b, rfl, (a ++ "; ").data, [], ?_⟩
        rw [string_data_append, string_data_append]
        simp

/-- Witness for `capturer_stop_combines`: both components fail and both
messages survive in the combined result. -/
theorem capturer_stop_combines_witness :
    (some "daemon broke" : Option Err) = some "daemon broke" ∧
      ∃ m, (capturerStop (some "daemon broke") (some "sucker broke")).2 = some m ∧
        ∃ l r, m.data = l ++ ("daemon broke" : String).data ++ r :=
  ⟨rfl,
    (capturer_stop_combines (some "daemon broke") (some "sucker broke")).2.2.1
      "daemon broke" rfl⟩

end Stf
